import Mathlib

set_option linter.unusedVariables false

/-!
Verification development for the Databricks LangGraph admin-agent repository.

The Python sources (`tools.py`, `agent_model.py`) are shallowly embedded:
  * JSON values are the inductive `Json`; Python `json.dumps` (default
    separators, `ensure_ascii=True`) is `dumps`; Python `json.loads` is
    modelled by the executable recursive-descent `jsonLoads`.
  * Each REST tool function becomes a Lean function of its declared
    arguments plus an `HttpOutcome` describing what the single HTTP call
    it issues would yield; the result pairs the returned string with the
    number of HTTP requests attempted.
  * `DatabricksAgentWrapper.predict` becomes `predict`, parameterised by
    the compiled graph invocation (`app`) and the uuid generator.
-/

namespace DatabricksAgent

/-- JSON values as produced by `response.json()` / consumed by `json.dumps`.
Objects are association lists; Python dict keys are unique, so list order is
insertion order and keys never repeat in values taken from real responses.
`nan` and `infinity` are the non-finite floats that CPython's `json`
accepts by default under the spellings `NaN`, `Infinity`, `-Infinity`. -/
inductive Json where
  | null
  | bool (b : Bool)
  | num (n : Int)
  | str (s : String)
  | arr (items : List Json)
  | obj (fields : List (String × Json))
  | nan
  | infinity (neg : Bool)

/-- Four-digit lowercase hex rendering used by `\u....` escapes. -/
def hexDigit (n : Nat) : Char :=
  if n < 10 then Char.ofNat (48 + n) else Char.ofNat (87 + (n - 10))

/-- Four hex digits of `n % 65536`. -/
def hex4 (n : Nat) : String :=
  String.mk [hexDigit ((n / 4096) % 16), hexDigit ((n / 256) % 16),
             hexDigit ((n / 16) % 16), hexDigit (n % 16)]

/-- Escaping of one character as done by Python `json.dumps` with
`ensure_ascii=True`: everything outside `0x20 .. 0x7e` is `\u`-escaped
(supplementary-plane codepoints as surrogate pairs). -/
def escChar (c : Char) : String :=
  if c = '"' then "\\\""
  else if c = '\\' then "\\\\"
  else if c = '\n' then "\\n"
  else if c = '\t' then "\\t"
  else if c = '\r' then "\\r"
  else if c.toNat = 8 then "\\b"
  else if c.toNat = 12 then "\\f"
  else if c.toNat < 32 || c.toNat > 126 then
    if c.toNat < 65536 then "\\u" ++ hex4 c.toNat
    else
      "\\u" ++ hex4 (55296 + (c.toNat - 65536) / 1024)
        ++ "\\u" ++ hex4 (56320 + (c.toNat - 65536) % 1024)
  else String.singleton c

/-- A JSON string literal as `json.dumps` prints it. -/
def quoteJson (s : String) : String :=
  "\"" ++ String.join (s.data.map escChar) ++ "\""

mutual

/-- Python `json.dumps` with its default separators `", "` and `": "`
(`allow_nan` defaults to true, printing the non-finite floats as below). -/
def dumps : Json → String
  | .null => "null"
  | .bool true => "true"
  | .bool false => "false"
  | .num n => toString n
  | .str s => quoteJson s
  | .arr items => "[" ++ dumpsArr items ++ "]"
  | .obj fields => "\x7b" ++ dumpsObj fields ++ "\x7d"
  | .nan => "NaN"
  | .infinity false => "Infinity"
  | .infinity true => "-Infinity"

/-- Comma-joined array elements. -/
def dumpsArr : List Json → String
  | [] => ""
  | [x] => dumps x
  | x :: y :: rest => dumps x ++ ", " ++ dumpsArr (y :: rest)

/-- Comma-joined `"key": value` object members. -/
def dumpsObj : List (String × Json) → String
  | [] => ""
  | [(k, v)] => quoteJson k ++ ": " ++ dumps v
  | (k, v) :: y :: rest => quoteJson k ++ ": " ++ dumps v ++ ", " ++ dumpsObj (y :: rest)

end

/-- Python `dict.get(key, default)` on an object body. -/
def dictGet (fields : List (String × Json)) (key : String) (default : Json) : Json :=
  match fields.find? (fun kv => kv.fst == key) with
  | some kv => kv.snd
  | none => default

/-! ## Embedding of `tools.py`

Every tool wraps its whole body in `try ... except Exception`, issues at
most one HTTP request via `requests.get/post/delete`, and calls
`response.raise_for_status()`.  The outcome of that single call is
abstracted by `HttpOutcome`: `success body` means the request returned
without any exception and `response.json()` parsed to the JSON object
`body` (all Databricks endpoints used here answer with JSON objects);
`httpError msg` means some step of the request — connection, error
status raised by `raise_for_status`, or body decoding — raised an
exception whose `str(e)` is `msg`.

Each embedded tool returns `String × Nat`: the string the Python
function returns, paired with the number of HTTP requests attempted
(0 or 1).  The `except` clause makes every tool total: no exception
escapes the call boundary. -/

inductive HttpOutcome where
  | success (body : List (String × Json))
  | httpError (msg : String)

def DATABRICKS_BASE_URL : String := "YOUR DATABRICKS BASE URL"

def DATABRICKS_TOKEN : String := "YOUR DATABRICKS PAT TOKEN"

/-- The repeated `except` clause of every tool:
`error_message = f"Databricks API Error: ..."` followed by
`json.dumps(\x7b"error": error_message, "tool": label\x7d)`.  The `label`
argument is the string literal each tool writes in its own `except`
clause, which is not always the tool's registered name. -/
def databricksErr (e toolLabel : String) : String :=
  dumps (Json.obj [("error", Json.str ("Databricks API Error: " ++ e)),
                   ("tool", Json.str toolLabel)])

/-- `if x is not None: request_data[key] = x` for string-valued fields. -/
def optStrField (key : String) (v : Option String) : List (String × Json) :=
  match v with
  | some s => [(key, Json.str s)]
  | none => []

/-- `if x is not None: request_data[key] = x` for int-valued fields. -/
def optIntField (key : String) (v : Option Int) : List (String × Json) :=
  match v with
  | some n => [(key, Json.num n)]
  | none => []

/-- `if x: request_data[key] = x` — Python truthiness on an optional
string skips both `None` and the empty string. -/
def truthyStrField (key : String) (v : Option String) : List (String × Json) :=
  match v with
  | some s => if s = "" then [] else [(key, Json.str s)]
  | none => []

/-! ### Model of Python `json.loads`

`tools.start_job` calls `json.loads` on its `job_parameters` argument, so
the grammar of JSON texts matters for it.  `jsonLoads` below is an
executable recursive-descent parser for the `json.loads` grammar
(values: object / array / string / number / `true` / `false` / `null`,
plus the constants `NaN`, `Infinity` and `-Infinity` that CPython
accepts by default via `parse_constant`).  Error messages are shortened
forms of CPython's (position suffixes and punctuation are dropped);
fractional and exponent parts of numbers are accepted by the grammar but
their numeric value is truncated to the integer part, and surrogate
pairs in `\u` escapes are not recombined — no claim evaluates a parsed
non-integer number or a parsed astral-plane string value. -/

def lbrace : Char := Char.ofNat 123

def rbrace : Char := Char.ofNat 125

def isWsChar (c : Char) : Bool :=
  c = ' ' || c = '\t' || c = '\n' || c = '\r'

def skipWs : List Char → List Char
  | [] => []
  | c :: cs => if isWsChar c then skipWs cs else c :: cs

/-- Match an exact literal (`null` / `true` / `false`) at the head. -/
def matchLit : List Char → List Char → Option (List Char)
  | [], cs => some cs
  | _ :: _, [] => none
  | l :: ls, c :: cs => if c = l then matchLit ls cs else none

def isDigitChar (c : Char) : Bool :=
  48 ≤ c.toNat && c.toNat ≤ 57

def takeDigits : List Char → List Char × List Char
  | [] => ([], [])
  | c :: cs =>
    if isDigitChar c then
      let p := takeDigits cs
      (c :: p.fst, p.snd)
    else ([], c :: cs)

def digitsVal (ds : List Char) : Nat :=
  ds.foldl (fun a c => a * 10 + (c.toNat - 48)) 0

def hexVal (c : Char) : Option Nat :=
  if 48 ≤ c.toNat && c.toNat ≤ 57 then some (c.toNat - 48)
  else if 97 ≤ c.toNat && c.toNat ≤ 102 then some (c.toNat - 87)
  else if 65 ≤ c.toNat && c.toNat ≤ 70 then some (c.toNat - 55)
  else none

/-- String-literal body after the opening quote; decodes escapes. -/
def parseStrChars : Nat → List Char → Except String (List Char × List Char)
  | 0, _ => .error "Unterminated string"
  | _ + 1, [] => .error "Unterminated string"
  | fuel + 1, c :: cs =>
    if c = '"' then .ok ([], cs)
    else if c = '\\' then
      match cs with
      | [] => .error "Unterminated string"
      | e :: cs2 =>
        if e = 'u' then
          match cs2 with
          | h1 :: h2 :: h3 :: h4 :: cs3 =>
            match hexVal h1, hexVal h2, hexVal h3, hexVal h4 with
            | some a, some b, some c3, some d =>
              match parseStrChars fuel cs3 with
              | .ok p => .ok (Char.ofNat (((a * 16 + b) * 16 + c3) * 16 + d) :: p.fst, p.snd)
              | .error m => .error m
            | _, _, _, _ => .error "Invalid hex escape"
          | _ => .error "Invalid hex escape"
        else
          let dec : Option Char :=
            if e = '"' then some '"'
            else if e = '\\' then some '\\'
            else if e = '/' then some '/'
            else if e = 'n' then some '\n'
            else if e = 't' then some '\t'
            else if e = 'r' then some '\r'
            else if e = 'b' then some (Char.ofNat 8)
            else if e = 'f' then some (Char.ofNat 12)
            else none
          match dec with
          | some d =>
            match parseStrChars fuel cs2 with
            | .ok p => .ok (d :: p.fst, p.snd)
            | .error m => .error m
          | none => .error "Invalid escape"
    else if c.toNat < 32 then .error "Invalid control character"
    else
      match parseStrChars fuel cs with
      | .ok p => .ok (c :: p.fst, p.snd)
      | .error m => .error m

/-- Consume a well-formed fraction part, if present. -/
def consumeFrac : List Char → List Char
  | '.' :: c :: rest => if isDigitChar c then (takeDigits rest).snd else '.' :: c :: rest
  | cs => cs

/-- Consume a well-formed exponent part, if present. -/
def consumeExp : List Char → List Char
  | [] => []
  | c :: rest =>
    if c = 'e' || c = 'E' then
      match rest with
      | [] => c :: rest
      | s :: r2 =>
        if s = '+' || s = '-' then
          match r2 with
          | [] => c :: rest
          | d :: r3 => if isDigitChar d then (takeDigits r3).snd else c :: rest
        else if isDigitChar s then (takeDigits r2).snd
        else c :: rest
    else c :: rest

/-- Number token per the JSON grammar (`-?(0|[1-9][0-9]*)` with optional
fraction and exponent); value truncated to the integer part. -/
def parseNum (cs : List Char) : Option (Int × List Char) :=
  let p : Bool × List Char :=
    match cs with
    | c :: rest => if c = '-' then (true, rest) else (false, cs)
    | [] => (false, [])
  match p.snd with
  | c :: rest =>
    if c = '0' then some (0, consumeExp (consumeFrac rest))
    else if isDigitChar c then
      let q := takeDigits rest
      let v : Int := Int.ofNat (digitsVal (c :: q.fst))
      some (if p.fst then -v else v, consumeExp (consumeFrac q.snd))
    else none
  | [] => none

mutual

/-- One JSON value; fuel bounds the nesting recursion. -/
def parseVal : Nat → List Char → Except String (Json × List Char)
  | 0, _ => .error "Expecting value"
  | fuel + 1, cs =>
    match skipWs cs with
    | [] => .error "Expecting value"
    | c :: rest =>
      if c = '"' then
        match parseStrChars (rest.length + 1) rest with
        | .ok p => .ok (Json.str (String.mk p.fst), p.snd)
        | .error m => .error m
      else if c = lbrace then
        match skipWs rest with
        | [] => .error "Expecting property name enclosed in double quotes"
        | c2 :: r2 =>
          if c2 = rbrace then .ok (Json.obj [], r2)
          else
            match parseObjItems fuel (c2 :: r2) with
            | .ok p => .ok (Json.obj p.fst, p.snd)
            | .error m => .error m
      else if c = '[' then
        match skipWs rest with
        | [] => .error "Expecting value"
        | c2 :: r2 =>
          if c2 = ']' then .ok (Json.arr [], r2)
          else
            match parseArrItems fuel (c2 :: r2) with
            | .ok p => .ok (Json.arr p.fst, p.snd)
            | .error m => .error m
      else
        match matchLit ['n', 'u', 'l', 'l'] (c :: rest) with
        | some r => .ok (Json.null, r)
        | none =>
          match matchLit ['t', 'r', 'u', 'e'] (c :: rest) with
          | some r => .ok (Json.bool true, r)
          | none =>
            match matchLit ['f', 'a', 'l', 's', 'e'] (c :: rest) with
            | some r => .ok (Json.bool false, r)
            | none =>
              match parseNum (c :: rest) with
              | some vr => .ok (Json.num vr.fst, vr.snd)
              | none =>
                match matchLit ['N', 'a', 'N'] (c :: rest) with
                | some r => .ok (Json.nan, r)
                | none =>
                  match matchLit ['I', 'n', 'f', 'i', 'n', 'i', 't', 'y'] (c :: rest) with
                  | some r => .ok (Json.infinity false, r)
                  | none =>
                    match matchLit ['-', 'I', 'n', 'f', 'i', 'n', 'i', 't', 'y'] (c :: rest) with
                    | some r => .ok (Json.infinity true, r)
                    | none => .error "Expecting value"

/-- Array elements after `[` (first element known non-`]`). -/
def parseArrItems : Nat → List Char → Except String (List Json × List Char)
  | 0, _ => .error "Expecting value"
  | fuel + 1, cs =>
    match parseVal fuel cs with
    | .error m => .error m
    | .ok vr =>
      match skipWs vr.snd with
      | [] => .error "Expecting comma delimiter"
      | c :: r2 =>
        if c = ',' then
          match parseArrItems fuel r2 with
          | .ok p => .ok (vr.fst :: p.fst, p.snd)
          | .error m => .error m
        else if c = ']' then .ok ([vr.fst], r2)
        else .error "Expecting comma delimiter"

/-- Object members after a brace (first member known non-empty). -/
def parseObjItems : Nat → List Char → Except String (List (String × Json) × List Char)
  | 0, _ => .error "Expecting property name enclosed in double quotes"
  | fuel + 1, cs =>
    match skipWs cs with
    | [] => .error "Expecting property name enclosed in double quotes"
    | c :: rest =>
      if c = '"' then
        match parseStrChars (rest.length + 1) rest with
        | .error m => .error m
        | .ok kp =>
          match skipWs kp.snd with
          | [] => .error "Expecting colon delimiter"
          | c2 :: r2 =>
            if c2 = ':' then
              match parseVal fuel r2 with
              | .error m => .error m
              | .ok vr =>
                match skipWs vr.snd with
                | [] => .error "Expecting comma delimiter"
                | c3 :: r4 =>
                  if c3 = ',' then
                    match parseObjItems fuel r4 with
                    | .ok p => .ok ((String.mk kp.fst, vr.fst) :: p.fst, p.snd)
                    | .error m => .error m
                  else if c3 = rbrace then .ok ([(String.mk kp.fst, vr.fst)], r4)
                  else .error "Expecting comma delimiter"
            else .error "Expecting colon delimiter"
      else .error "Expecting property name enclosed in double quotes"

end

/-- Python `json.loads`: parse one value, then only whitespace may
remain.  The fuel `2 * s.length + 2` exceeds the recursion depth any
input of this length can force. -/
def jsonLoads (s : String) : Except String Json :=
  match parseVal (2 * s.length + 2) s.data with
  | .error m => .error m
  | .ok vr =>
    match skipWs vr.snd with
    | [] => .ok vr.fst
    | _ :: _ => .error "Extra data"

/-- Whether a parse attempt failed. -/
def isErrorResult : Except String Json → Bool
  | .error _ => true
  | .ok _ => false

/-- `tools.list_service_principal`. -/
def list_service_principal (filter : Option String) (count : Option Int)
    (sortBy : Option String) (sortOrder : Option String) (startIndex : Option Int)
    (attributes : Option String) (excludedAttributes : Option String)
    (h : HttpOutcome) : String × Nat :=
  let api_endpoint := DATABRICKS_BASE_URL ++ "/api/2.0/preview/scim/v2/ServicePrincipals"
  let request_data : List (String × Json) :=
    optStrField "filter" filter ++ optIntField "count" count
      ++ optStrField "sortBy" sortBy ++ optStrField "sortOrder" sortOrder
      ++ optIntField "startIndex" startIndex ++ optStrField "attributes" attributes
      ++ optStrField "excludedAttributes" excludedAttributes
  match h with
  | .success body => (dumps (Json.obj body), 1)
  | .httpError e => (databricksErr e "list_service_principal", 1)

/-- `tools.create_service_principal`. -/
def create_service_principal (display_name : String) (active : Bool)
    (application_id : Option String) (h : HttpOutcome) : String × Nat :=
  let api_endpoint := DATABRICKS_BASE_URL ++ "/api/2.0/preview/scim/v2/ServicePrincipals"
  let request_data : List (String × Json) :=
    [("schemas", Json.arr [Json.str "urn:ietf:params:scim:schemas:core:2.0:ServicePrincipal"]),
     ("displayName", Json.str display_name), ("active", Json.bool active)]
      ++ optStrField "applicationId" application_id
  match h with
  | .success body => (dumps (Json.obj body), 1)
  | .httpError e => (databricksErr e "create_service_principal", 1)

/-- `tools.get_service_principal_details`. -/
def get_service_principal_details (id : Int) (h : HttpOutcome) : String × Nat :=
  let api_endpoint := DATABRICKS_BASE_URL ++ "/api/2.0/preview/scim/v2/ServicePrincipals/" ++ toString id
  let request_data : List (String × Json) := [("id", Json.num id)]
  match h with
  | .success body => (dumps (Json.obj body), 1)
  | .httpError e => (databricksErr e "get_service_principal_details", 1)

/-- `tools.delete_service_principal`. -/
def delete_service_principal (id : Int) (h : HttpOutcome) : String × Nat :=
  let api_endpoint := DATABRICKS_BASE_URL ++ "/api/2.0/preview/scim/v2/ServicePrincipals/" ++ toString id
  match h with
  | .success _body =>
      (dumps (Json.obj [("status", Json.str "Success"),
        ("message", Json.str ("Service Principal with ID " ++ toString id ++ " deleted successfully."))]), 1)
  | .httpError e => (databricksErr e "delete_service_principal", 1)

/-- `tools.list_of_scopes` — extracts `response.json().get("scopes", [])`. -/
def list_of_scopes (h : HttpOutcome) : String × Nat :=
  let api_endpoint := DATABRICKS_BASE_URL ++ "/api/2.0/secrets/scopes/list"
  match h with
  | .success body => (dumps (dictGet body "scopes" (Json.arr [])), 1)
  | .httpError e => (databricksErr e "list_of_scopes", 1)

/-- `tools.create_scope`. -/
def create_scope (scope : String) (scope_backend_type : String)
    (initial_manage_principal : Option String) (h : HttpOutcome) : String × Nat :=
  let api_endpoint := DATABRICKS_BASE_URL ++ "/api/2.0/secrets/scopes/create"
  let request_data : List (String × Json) :=
    [("scope", Json.str scope), ("scope_backend_type", Json.str scope_backend_type)]
      ++ optStrField "initial_manage_principal" initial_manage_principal
  match h with
  | .success _body =>
      (dumps (Json.obj [("status", Json.str "Success"),
        ("message", Json.str ("Scope " ++ scope ++ " created successfully."))]), 1)
  | .httpError e => (databricksErr e "create_scope", 1)

/-- `tools.add_secret`.  Note the `except` clause labels the payload
`"create_secret"`, not the registered name `add_secret`. -/
def add_secret (scope : String) (key : String)
    (string_value : Option String) (bytes_value : Option String)
    (h : HttpOutcome) : String × Nat :=
  let api_endpoint := DATABRICKS_BASE_URL ++ "/api/2.0/secrets/put"
  let request_data : List (String × Json) :=
    [("scope", Json.str scope), ("key", Json.str key)]
      ++ truthyStrField "string_value" string_value
      ++ truthyStrField "bytes_value" bytes_value
  match h with
  | .success _body =>
      (dumps (Json.obj [("status", Json.str "Success"),
        ("message", Json.str ("Secret with key " ++ key ++ " stored successfully."))]), 1)
  | .httpError e => (databricksErr e "create_secret", 1)

/-- `tools.delete_secret`. -/
def delete_secret (scope : String) (key : String) (h : HttpOutcome) : String × Nat :=
  let api_endpoint := DATABRICKS_BASE_URL ++ "/api/2.0/secrets/delete"
  let request_data : List (String × Json) :=
    [("scope", Json.str scope), ("key", Json.str key)]
  match h with
  | .success _body =>
      (dumps (Json.obj [("status", Json.str "Success"),
        ("message", Json.str ("Secret with key " ++ key ++ " deleted successfully."))]), 1)
  | .httpError e => (databricksErr e "delete_secret", 1)

/-- `tools.delete_scope`. -/
def delete_scope (scope : String) (h : HttpOutcome) : String × Nat :=
  let api_endpoint := DATABRICKS_BASE_URL ++ "/api/2.0/secrets/scopes/delete"
  let request_data : List (String × Json) := [("scope", Json.str scope)]
  match h with
  | .success _body =>
      (dumps (Json.obj [("status", Json.str "Success"),
        ("message", Json.str ("Scope " ++ scope ++ " deleted successfully."))]), 1)
  | .httpError e => (databricksErr e "delete_scope", 1)

/-- `tools.get_secret` issues no HTTP request: it calls
`dbutils.secrets.get(scope, key)`, abstracted here as `dbu` — `.ok v`
when the call returns the secret string `v`, `.error msg` when it raises
(e.g. the `NameError` from `dbutils` being undefined in `tools.py`). -/
def get_secret (scope : String) (key : String)
    (dbu : Except String String) : String × Nat :=
  match dbu with
  | .ok secret_value =>
      (dumps (Json.obj [("key", Json.str key), ("value", Json.str secret_value),
                        ("source", Json.str "dbutils")]), 0)
  | .error e => (databricksErr e "get_secret", 0)

/-- `tools.create_acl_scopes`. -/
def create_acl_scopes (scope : String) (permission : String) (principal : String)
    (h : HttpOutcome) : String × Nat :=
  let api_endpoint := DATABRICKS_BASE_URL ++ "/api/2.0/secrets/acls/put"
  let request_data : List (String × Json) :=
    [("scope", Json.str scope), ("principal", Json.str principal),
     ("permission", Json.str permission)]
  match h with
  | .success _body =>
      (dumps (Json.obj [("status", Json.str "Success"),
        ("message", Json.str ("Gave " ++ permission ++ " permission to " ++ principal ++ " on " ++ scope ++ "."))]), 1)
  | .httpError e => (databricksErr e "create_acl_scopes", 1)

/-- `tools.list_acl_scopes`. -/
def list_acl_scopes (scope : String) (h : HttpOutcome) : String × Nat :=
  let api_endpoint := DATABRICKS_BASE_URL ++ "/api/2.0/secrets/acls/list"
  let request_data : List (String × Json) := [("scope", Json.str scope)]
  match h with
  | .success body => (dumps (Json.obj body), 1)
  | .httpError e => (databricksErr e "list_acl_scopes", 1)

/-- `tools.delete_acl_scopes`. -/
def delete_acl_scopes (scope : String) (principal : String) (h : HttpOutcome) : String × Nat :=
  let api_endpoint := DATABRICKS_BASE_URL ++ "/api/2.0/secrets/acls/delete"
  let request_data : List (String × Json) :=
    [("scope", Json.str scope), ("principal", Json.str principal)]
  match h with
  | .success _body =>
      (dumps (Json.obj [("status", Json.str "Success"),
        ("message", Json.str ("Deleted permissions for " ++ principal ++ " on " ++ scope ++ "."))]), 1)
  | .httpError e => (databricksErr e "delete_acl_scopes", 1)

/-- `tools.list_clusters` — extracts `response.json().get("clusters", [])`. -/
def list_clusters (h : HttpOutcome) : String × Nat :=
  let api_endpoint := DATABRICKS_BASE_URL ++ "/api/2.1/clusters/list"
  match h with
  | .success body => (dumps (dictGet body "clusters" (Json.arr [])), 1)
  | .httpError e => (databricksErr e "list_clusters", 1)

/-- `tools.terminate_clusters`. -/
def terminate_clusters (cluster_id : String) (h : HttpOutcome) : String × Nat :=
  let api_endpoint := DATABRICKS_BASE_URL ++ "/api/2.1/clusters/delete"
  let request_data : List (String × Json) := [("cluster_id", Json.str cluster_id)]
  match h with
  | .success _body =>
      (dumps (Json.obj [("status", Json.str "Success"),
        ("message", Json.str ("Cluster " ++ cluster_id ++ " terminated successfully."))]), 1)
  | .httpError e => (databricksErr e "terminate_clusters", 1)

/-- `tools.start_cluster`. -/
def start_cluster (cluster_id : String) (h : HttpOutcome) : String × Nat :=
  let api_endpoint := DATABRICKS_BASE_URL ++ "/api/2.1/clusters/start"
  let request_data : List (String × Json) := [("cluster_id", Json.str cluster_id)]
  match h with
  | .success _body =>
      (dumps (Json.obj [("status", Json.str "Success"),
        ("message", Json.str ("Cluster " ++ cluster_id ++ " started successfully."))]), 1)
  | .httpError e => (databricksErr e "start_cluster", 1)

/-- `tools.get_cluster_info`. -/
def get_cluster_info (cluster_id : String) (h : HttpOutcome) : String × Nat :=
  let api_endpoint := DATABRICKS_BASE_URL ++ "/api/2.1/clusters/get"
  let request_data : List (String × Json) := [("cluster_id", Json.str cluster_id)]
  match h with
  | .success body => (dumps (Json.obj body), 1)
  | .httpError e => (databricksErr e "get_cluster_info", 1)

/-- `tools.restart_cluster`. -/
def restart_cluster (cluster_id : String) (h : HttpOutcome) : String × Nat :=
  let api_endpoint := DATABRICKS_BASE_URL ++ "/api/2.1/clusters/restart"
  let request_data : List (String × Json) := [("cluster_id", Json.str cluster_id)]
  match h with
  | .success _body =>
      (dumps (Json.obj [("status", Json.str "Success"),
        ("message", Json.str ("Cluster " ++ cluster_id ++ " restarted successfully."))]), 1)
  | .httpError e => (databricksErr e "restart_cluster", 1)

/-- The POST step of `tools.start_job`, reached only when building
`request_data` raised nothing. -/
def startJobPost (job_id : Int) (h : HttpOutcome) : String × Nat :=
  match h with
  | .success _body =>
      (dumps (Json.obj [("status", Json.str "Success"),
        ("message", Json.str ("Job: " ++ toString job_id ++ " started successfully."))]), 1)
  | .httpError e => (databricksErr e "start_job", 1)

/-- `tools.start_job`.  `if job_parameters:` is Python truthiness, so
`None` and `""` both skip the `json.loads` call; when `json.loads`
raises, the `except` clause returns the error payload before any HTTP
request is attempted. -/
def start_job (job_id : Int) (job_parameters : Option String) (h : HttpOutcome) : String × Nat :=
  let api_endpoint := DATABRICKS_BASE_URL ++ "/api/2.2/jobs/run-now"
  match job_parameters with
  | some jp =>
      if jp = "" then startJobPost job_id h
      else
        match jsonLoads jp with
        | .error e => (databricksErr e "start_job", 0)
        | .ok _json_parameters => startJobPost job_id h
  | none => startJobPost job_id h

/-- `tools.list_jobs`. -/
def list_jobs (limit : Int) (expand_tasks : Bool)
    (name : Option String) (page_token : Option String) (h : HttpOutcome) : String × Nat :=
  let api_endpoint := DATABRICKS_BASE_URL ++ "/api/2.2/jobs/list"
  let request_data : List (String × Json) :=
    [("limit", Json.num limit), ("expand_tasks", Json.bool expand_tasks)]
      ++ truthyStrField "name" name ++ truthyStrField "page_token" page_token
  match h with
  | .success body => (dumps (Json.obj body), 1)
  | .httpError e => (databricksErr e "list_jobs", 1)

/-- `tools.cancel_job`.  Its success path returns a bare f-string, not
JSON, and its `except` clause labels the payload `"list_jobs"`. -/
def cancel_job (job_id : Int) (h : HttpOutcome) : String × Nat :=
  let api_endpoint := DATABRICKS_BASE_URL ++ "/api/2.2/jobs/runs/cancel-all"
  let request_data : List (String × Json) := [("job_id", Json.num job_id)]
  match h with
  | .success _body => ("Job: " ++ toString job_id ++ " cancelled succesfully", 1)
  | .httpError e => (databricksErr e "list_jobs", 1)

/-- `tools.get_job_details`.  Its `except` clause labels the payload
`"get_job"`. -/
def get_job_details (job_id : Int) (page_token : Option String)
    (h : HttpOutcome) : String × Nat :=
  let api_endpoint := DATABRICKS_BASE_URL ++ "/api/2.2/jobs/get"
  let request_data : List (String × Json) :=
    [("job_id", Json.num job_id)] ++ truthyStrField "page_token" page_token
  match h with
  | .success body => (dumps (Json.obj body), 1)
  | .httpError e => (databricksErr e "get_job", 1)

/-! ## Embedding of `agent_model.py`

`fix_schema_recursive` mutates its argument in place in Python
(`del obj['additionalProperties']`) and returns it; its value-level
effect — the relation between the argument value before the call and
the value after / returned — is the pure function below.  Python dict
keys are unique, so deleting the key equals dropping the (single)
binding with that key from the association list. -/

mutual

/-- `Graphbuilder.__init__.fix_schema_recursive`: on a dict, drop the
`additionalProperties` binding, then recurse into every remaining
value; on a list, recurse into every item; anything else unchanged. -/
def fix_schema_recursive : Json → Json
  | .obj fields => Json.obj (fixFields fields)
  | .arr items => Json.arr (fixItems items)
  | .null => Json.null
  | .bool b => Json.bool b
  | .num n => Json.num n
  | .str s => Json.str s
  | .nan => Json.nan
  | .infinity neg => Json.infinity neg

/-- Dict members: the `additionalProperties` binding is dropped without
recursing into its value (Python deletes it before the loop); every
other value is fixed recursively. -/
def fixFields : List (String × Json) → List (String × Json)
  | [] => []
  | (k, v) :: rest =>
    if k == "additionalProperties" then fixFields rest
    else (k, fix_schema_recursive v) :: fixFields rest

/-- List items are fixed recursively. -/
def fixItems : List Json → List Json
  | [] => []
  | x :: rest => fix_schema_recursive x :: fixItems rest

end

mutual

/-- No mapping anywhere inside the value carries the key
`additionalProperties`. -/
def noAddProps : Json → Bool
  | .obj fields => noAddPropsFields fields
  | .arr items => noAddPropsItems items
  | .null => true
  | .bool _ => true
  | .num _ => true
  | .str _ => true
  | .nan => true
  | .infinity _ => true

def noAddPropsFields : List (String × Json) → Bool
  | [] => true
  | (k, v) :: rest => (k != "additionalProperties") && noAddProps v && noAddPropsFields rest

def noAddPropsItems : List Json → Bool
  | [] => true
  | x :: rest => noAddProps x && noAddPropsItems rest

end

/-! ### The request/response adapter (`DatabricksAgentWrapper.predict`)

Inbound requests follow the external contract: a record that either has
an `input` field holding a list of `\x7brole, content\x7d` items or lacks
`input` entirely.  An item's content is a flat string or a list of
content parts; a part is either a dict (string-keyed fields, the
relevant ones string-valued) or any non-dict value.  The compiled
LangGraph application is abstracted as `app`: given the translated
message list it either yields the final message text (`.ok`) or raises
an exception with message `e` (`.error e`), covering everything inside
the `try` around `self.app.invoke`.  `uuid k` is the `k`-th
`uuid.uuid4()` drawn while building the response.  `PredictResult`
also records how many times the graph was invoked. -/

inductive InPart where
  | dict (fields : List (String × String))
  | other

inductive ReqContent where
  | str (s : String)
  | parts (items : List InPart)

structure InMsg where
  role : String
  content : ReqContent

inductive LCMessage where
  | human (content : String)
  | ai (content : String)
  | system (content : String)

/-- Lines 272–275 of `agent_model.py`: a list content is replaced by
`" ".join([item.get("text", "") for item in content if
isinstance(item, dict) and "text" in item])`; a flat string passes
through. -/
def normContent : ReqContent → String
  | .str s => s
  | .parts items =>
    String.intercalate " "
      ((items.filter fun it =>
          match it with
          | .dict fields => fields.any (fun kv => kv.fst == "text")
          | .other => false).map
        fun it =>
          match it with
          | .dict fields =>
            (match fields.find? (fun kv => kv.fst == "text") with
             | some kv => kv.snd
             | none => "")
          | .other => "")

/-- The `for msg in request_dict["input"]` loop of `predict`: appends a
`HumanMessage` / `AIMessage` / `SystemMessage` per recognised role and
appends nothing for any other role. -/
def translateLoop (input : List InMsg) : List LCMessage :=
  input.foldl
    (fun langgraph_messages msg =>
      let content := normContent msg.content
      if msg.role == "user" then langgraph_messages ++ [LCMessage.human content]
      else if msg.role == "assistant" then langgraph_messages ++ [LCMessage.ai content]
      else if msg.role == "system" then langgraph_messages ++ [LCMessage.system content]
      else langgraph_messages)
    []

/-- `DatabricksAgentWrapper.create_text_output_item`. -/
def create_text_output_item (text : String) (id : String) : Json :=
  Json.obj [("type", Json.str "message"), ("id", Json.str id),
            ("content", Json.arr [Json.obj [("type", Json.str "output_text"),
                                            ("text", Json.str text)]]),
            ("role", Json.str "assistant")]

structure ResponsesAgentResponse where
  id : String
  output : List Json

inductive Request where
  | withInput (input : List InMsg)
  | noInput

structure PredictResult where
  response : ResponsesAgentResponse
  graphCalls : Nat

/-- `DatabricksAgentWrapper.predict`, parameterised by the compiled
graph invocation `app` and the uuid stream. -/
def predict (app : List LCMessage → Except String String) (uuid : Nat → String)
    (request : Request) : PredictResult :=
  match request with
  | .noInput =>
      { response :=
          { id := uuid 0,
            output := [create_text_output_item
                         "Error: Model received invalid request format." (uuid 1)] },
        graphCalls := 0 }
  | .withInput input =>
      let langgraph_messages := translateLoop input
      match app langgraph_messages with
      | .ok final_text =>
          { response :=
              { id := uuid 0,
                output := [create_text_output_item final_text (uuid 1)] },
            graphCalls := 1 }
      | .error e =>
          { response :=
              { id := uuid 0,
                output := [create_text_output_item
                             ("Sorry, an error occurred: " ++ e) (uuid 1)] },
            graphCalls := 1 }

/-! ### Claim-side reference definitions

The next two definitions restate what the spec says the adapter does to
a single message, and to a single content part; the theorems for the
adapter claims compare the source-translated loop against them. -/

/-- Per-item mapping as the spec words it: user → human, assistant →
ai, system → system, anything else dropped. -/
def msgMapSpec (m : InMsg) : Option LCMessage :=
  if m.role == "user" then some (LCMessage.human (normContent m.content))
  else if m.role == "assistant" then some (LCMessage.ai (normContent m.content))
  else if m.role == "system" then some (LCMessage.system (normContent m.content))
  else none

/-- Per-part extraction as the spec words it: the `text` value of a dict
part that has a `text` key; every other part is discarded. -/
def partTextSpec : InPart → Option String
  | .dict fields => (fields.find? (fun kv => kv.fst == "text")).map Prod.snd
  | .other => none

/-! ## Helper lemmas -/

mutual

theorem noAdd_fix : (x : Json) → noAddProps (fix_schema_recursive x) = true
  | .null => rfl
  | .bool _ => rfl
  | .num _ => rfl
  | .str _ => rfl
  | .nan => rfl
  | .infinity _ => rfl
  | .arr items => by
      simp only [fix_schema_recursive, noAddProps]
      exact noAdd_fixItems items
  | .obj fields => by
      simp only [fix_schema_recursive, noAddProps]
      exact noAdd_fixFields fields

theorem noAdd_fixFields : (l : List (String × Json)) → noAddPropsFields (fixFields l) = true
  | [] => rfl
  | (k, v) :: rest => by
      cases hk : (k == "additionalProperties") with
      | true =>
          simp only [fixFields, hk, if_true]
          exact noAdd_fixFields rest
      | false =>
          have hk2 : k ≠ "additionalProperties" := by
            simpa [beq_eq_false_iff_ne] using hk
          simp [fixFields, hk, noAddPropsFields, noAdd_fix v, noAdd_fixFields rest, hk2]

theorem noAdd_fixItems : (l : List Json) → noAddPropsItems (fixItems l) = true
  | [] => rfl
  | x :: rest => by
      simp [fixItems, noAddPropsItems, noAdd_fix x, noAdd_fixItems rest]

end

mutual

theorem fix_of_clean : (x : Json) → noAddProps x = true → fix_schema_recursive x = x
  | .null, _ => rfl
  | .bool _, _ => rfl
  | .num _, _ => rfl
  | .str _, _ => rfl
  | .nan, _ => rfl
  | .infinity _, _ => rfl
  | .arr items, h => by
      simp only [noAddProps] at h
      simp only [fix_schema_recursive]
      rw [fixItems_of_clean items h]
  | .obj fields, h => by
      simp only [noAddProps] at h
      simp only [fix_schema_recursive]
      rw [fixFields_of_clean fields h]

theorem fixFields_of_clean :
    (l : List (String × Json)) → noAddPropsFields l = true → fixFields l = l
  | [], _ => rfl
  | (k, v) :: rest, h => by
      simp only [noAddPropsFields, Bool.and_eq_true] at h
      have hk : (k == "additionalProperties") = false := by
        have := h.1.1
        simp [bne] at this
        simpa using this
      simp [fixFields, hk, fix_of_clean v h.1.2, fixFields_of_clean rest h.2]

theorem fixItems_of_clean : (l : List Json) → noAddPropsItems l = true → fixItems l = l
  | [], _ => rfl
  | x :: rest, h => by
      simp only [noAddPropsItems, Bool.and_eq_true] at h
      simp [fixItems, fix_of_clean x h.1, fixItems_of_clean rest h.2]

end

theorem translateLoop_eq_filterMap (input : List InMsg) :
    translateLoop input = input.filterMap msgMapSpec := by
  have h : ∀ (l : List InMsg) (acc : List LCMessage),
      List.foldl
        (fun langgraph_messages msg =>
          let content := normContent msg.content
          if msg.role == "user" then langgraph_messages ++ [LCMessage.human content]
          else if msg.role == "assistant" then langgraph_messages ++ [LCMessage.ai content]
          else if msg.role == "system" then langgraph_messages ++ [LCMessage.system content]
          else langgraph_messages)
        acc l
      = acc ++ l.filterMap msgMapSpec := by
    intro l
    induction l with
    | nil => intro acc; simp
    | cons m rest ih =>
        intro acc
        simp only [List.foldl_cons, List.filterMap_cons]
        rw [ih]
        unfold msgMapSpec
        by_cases h1 : (m.role == "user") = true
        · simp [h1]
        · by_cases h2 : (m.role == "assistant") = true
          · simp [h1, h2]
          · by_cases h3 : (m.role == "system") = true
            · simp [h1, h2, h3]
            · simp [h1, h2, h3]
  simpa [translateLoop] using h input []

theorem normContent_parts_eq (items : List InPart) :
    normContent (ReqContent.parts items)
      = String.intercalate " " (items.filterMap partTextSpec) := by
  simp only [normContent]
  congr 1
  induction items with
  | nil => rfl
  | cons it rest ih =>
      cases it with
      | other => simpa [partTextSpec] using ih
      | dict fields =>
          cases hf : fields.find? (fun kv => kv.fst == "text") with
          | none =>
              have hany : (fields.any fun kv => kv.fst == "text") = false := by
                rw [Bool.eq_false_iff]
                intro hc
                rcases List.any_eq_true.mp hc with ⟨kv, hkv, hp⟩
                exact absurd hp (by simpa using List.find?_eq_none.mp hf kv hkv)
              simp [List.filter_cons, List.filterMap_cons, partTextSpec, hany, hf, ih]
          | some kv =>
              have hany : (fields.any fun kv => kv.fst == "text") = true := by
                have hmem : kv ∈ fields := List.mem_of_find?_eq_some hf
                have hp : (kv.fst == "text") = true :=
                  @List.find?_some _ (fun kv => kv.fst == "text") kv fields hf
                exact List.any_eq_true.mpr ⟨kv, hmem, hp⟩
              simp [List.filter_cons, List.filterMap_cons, partTextSpec, hany, hf, ih]

/-! ## Claim theorems -/

/-- Claim C1: for every request record with an `input` field, `predict`
returns a response object with exactly one output item and never lets an
exception escape (the embedding is total); in particular, when the graph
invocation raises an exception with message `e`, the response's single
output item embeds `"Sorry, an error occurred: " ++ e`. -/
theorem predict_with_input_returns_response_and_catches
    (app : List LCMessage → Except String String) (uuid : Nat → String)
    (input : List InMsg) :
    (predict app uuid (Request.withInput input)).response.output.length = 1
    ∧ ∀ e : String, app (translateLoop input) = Except.error e →
        (predict app uuid (Request.withInput input)).response.output
          = [create_text_output_item ("Sorry, an error occurred: " ++ e) (uuid 1)] := by
  constructor
  · cases h : app (translateLoop input) <;> simp [predict, h]
  · intro e he
    simp [predict, he]

/-- Witness for C1 at a concrete graph that raises `"boom"` on the empty
translated conversation. -/
theorem predict_with_input_catches_witness :
    (predict (fun _ => Except.error "boom") (fun _ => "id")
        (Request.withInput [])).response.output
      = [create_text_output_item ("Sorry, an error occurred: " ++ "boom") "id"] :=
  (predict_with_input_returns_response_and_catches
    (fun _ => Except.error "boom") (fun _ => "id") []).2 "boom" rfl

/-- Claim C2 counterexample: `add_secret` under a failing HTTP call does
return a JSON payload with `error` and `tool` keys, but the `tool` value
is `"create_secret"`, not the registered name `add_secret` — so the
payload is not the one the claim requires. -/
theorem add_secret_error_payload_mislabeled :
    (add_secret "s" "k" none none (HttpOutcome.httpError "boom")).fst
        = databricksErr "boom" "create_secret"
    ∧ (add_secret "s" "k" none none (HttpOutcome.httpError "boom")).fst
        ≠ databricksErr "boom" "add_secret" :=
  ⟨rfl, by decide⟩

/-- Claim C2 as amended: every tool callable, when its single HTTP call
(or, for `get_secret`, its `dbutils` call) fails with message `e`,
returns the serialized JSON payload with an `error` key embedding `e`
and a `tool` key, and the embedding is total so nothing raises past the
call boundary; the `tool` value equals the registered name for every
tool except `add_secret` (labelled `"create_secret"`), `cancel_job`
(labelled `"list_jobs"`) and `get_job_details` (labelled `"get_job"`). -/
theorem tools_error_payload_shape (e : String) :
    (∀ filter count sortBy sortOrder startIndex attributes excludedAttributes,
        (list_service_principal filter count sortBy sortOrder startIndex attributes
            excludedAttributes (HttpOutcome.httpError e)).fst
          = databricksErr e "list_service_principal")
    ∧ (∀ display_name active application_id,
        (create_service_principal display_name active application_id
            (HttpOutcome.httpError e)).fst
          = databricksErr e "create_service_principal")
    ∧ (∀ id, (get_service_principal_details id (HttpOutcome.httpError e)).fst
          = databricksErr e "get_service_principal_details")
    ∧ (∀ id, (delete_service_principal id (HttpOutcome.httpError e)).fst
          = databricksErr e "delete_service_principal")
    ∧ ((list_of_scopes (HttpOutcome.httpError e)).fst = databricksErr e "list_of_scopes")
    ∧ (∀ scope scope_backend_type initial_manage_principal,
        (create_scope scope scope_backend_type initial_manage_principal
            (HttpOutcome.httpError e)).fst
          = databricksErr e "create_scope")
    ∧ (∀ scope key string_value bytes_value,
        (add_secret scope key string_value bytes_value (HttpOutcome.httpError e)).fst
          = databricksErr e "create_secret")
    ∧ (∀ scope key, (delete_secret scope key (HttpOutcome.httpError e)).fst
          = databricksErr e "delete_secret")
    ∧ (∀ scope, (delete_scope scope (HttpOutcome.httpError e)).fst
          = databricksErr e "delete_scope")
    ∧ (∀ scope key, (get_secret scope key (Except.error e)).fst
          = databricksErr e "get_secret")
    ∧ (∀ scope permission principal,
        (create_acl_scopes scope permission principal (HttpOutcome.httpError e)).fst
          = databricksErr e "create_acl_scopes")
    ∧ (∀ scope, (list_acl_scopes scope (HttpOutcome.httpError e)).fst
          = databricksErr e "list_acl_scopes")
    ∧ (∀ scope principal, (delete_acl_scopes scope principal (HttpOutcome.httpError e)).fst
          = databricksErr e "delete_acl_scopes")
    ∧ ((list_clusters (HttpOutcome.httpError e)).fst = databricksErr e "list_clusters")
    ∧ (∀ cluster_id, (terminate_clusters cluster_id (HttpOutcome.httpError e)).fst
          = databricksErr e "terminate_clusters")
    ∧ (∀ cluster_id, (start_cluster cluster_id (HttpOutcome.httpError e)).fst
          = databricksErr e "start_cluster")
    ∧ (∀ cluster_id, (get_cluster_info cluster_id (HttpOutcome.httpError e)).fst
          = databricksErr e "get_cluster_info")
    ∧ (∀ cluster_id, (restart_cluster cluster_id (HttpOutcome.httpError e)).fst
          = databricksErr e "restart_cluster")
    ∧ (∀ job_id, (start_job job_id none (HttpOutcome.httpError e)).fst
          = databricksErr e "start_job")
    ∧ (∀ limit expand_tasks name page_token,
        (list_jobs limit expand_tasks name page_token (HttpOutcome.httpError e)).fst
          = databricksErr e "list_jobs")
    ∧ (∀ job_id, (cancel_job job_id (HttpOutcome.httpError e)).fst
          = databricksErr e "list_jobs")
    ∧ (∀ job_id page_token, (get_job_details job_id page_token (HttpOutcome.httpError e)).fst
          = databricksErr e "get_job") := by
  refine ⟨?_, ?_, ?_, ?_, ?_, ?_, ?_, ?_, ?_, ?_, ?_, ?_, ?_, ?_, ?_, ?_, ?_, ?_, ?_, ?_, ?_, ?_⟩
    <;> intros <;> rfl

/-- Claim C3: a request lacking `input` produces the fixed error
response with zero graph invocations, and the result does not depend on
the compiled graph at all. -/
theorem predict_no_input_short_circuits
    (app app2 : List LCMessage → Except String String) (uuid : Nat → String) :
    (predict app uuid Request.noInput).graphCalls = 0
    ∧ (predict app uuid Request.noInput).response.output
        = [create_text_output_item "Error: Model received invalid request format." (uuid 1)]
    ∧ predict app uuid Request.noInput = predict app2 uuid Request.noInput :=
  ⟨rfl, rfl, rfl⟩

/-- Claim C4 counterexample: `cancel_job` on a successful HTTP call with
response body `\x7b\x7d` returns the bare text
`"Job: 7 cancelled succesfully"`, which is neither the serialized
response body nor any extracted field of it — it is not even a valid
JSON text. -/
theorem cancel_job_success_not_json :
    (cancel_job 7 (HttpOutcome.success [])).fst = "Job: 7 cancelled succesfully"
    ∧ (cancel_job 7 (HttpOutcome.success [])).fst ≠ dumps (Json.obj [])
    ∧ isErrorResult (jsonLoads (cancel_job 7 (HttpOutcome.success [])).fst) = true :=
  ⟨rfl, by decide, rfl⟩

/-- Claim C4 as amended: on the success path, `list_service_principal`,
`create_service_principal`, `get_service_principal_details`,
`list_acl_scopes`, `get_cluster_info`, `list_jobs` and `get_job_details`
return the raw JSON response body serialized as text; `list_of_scopes`
and `list_clusters` return the extracted list field (defaulting to `[]`)
serialized; the remaining delete/create/put/start/restart/terminate
tools return a synthesized JSON status object and `get_secret` a
synthesized result object, serialized; `cancel_job` alone returns the
plain, non-JSON text `"Job: \x7bjob_id\x7d cancelled succesfully"`. -/
theorem tools_success_payload_forms (body : List (String × Json)) :
    (∀ filter count sortBy sortOrder startIndex attributes excludedAttributes,
        (list_service_principal filter count sortBy sortOrder startIndex attributes
            excludedAttributes (HttpOutcome.success body)).fst
          = dumps (Json.obj body))
    ∧ (∀ display_name active application_id,
        (create_service_principal display_name active application_id
            (HttpOutcome.success body)).fst
          = dumps (Json.obj body))
    ∧ (∀ id, (get_service_principal_details id (HttpOutcome.success body)).fst
          = dumps (Json.obj body))
    ∧ (∀ id, (delete_service_principal id (HttpOutcome.success body)).fst
          = dumps (Json.obj [("status", Json.str "Success"),
              ("message", Json.str ("Service Principal with ID " ++ toString id
                 ++ " deleted successfully."))]))
    ∧ ((list_of_scopes (HttpOutcome.success body)).fst
          = dumps (dictGet body "scopes" (Json.arr [])))
    ∧ (∀ scope scope_backend_type initial_manage_principal,
        (create_scope scope scope_backend_type initial_manage_principal
            (HttpOutcome.success body)).fst
          = dumps (Json.obj [("status", Json.str "Success"),
              ("message", Json.str ("Scope " ++ scope ++ " created successfully."))]))
    ∧ (∀ scope key string_value bytes_value,
        (add_secret scope key string_value bytes_value (HttpOutcome.success body)).fst
          = dumps (Json.obj [("status", Json.str "Success"),
              ("message", Json.str ("Secret with key " ++ key ++ " stored successfully."))]))
    ∧ (∀ scope key, (delete_secret scope key (HttpOutcome.success body)).fst
          = dumps (Json.obj [("status", Json.str "Success"),
              ("message", Json.str ("Secret with key " ++ key ++ " deleted successfully."))]))
    ∧ (∀ scope, (delete_scope scope (HttpOutcome.success body)).fst
          = dumps (Json.obj [("status", Json.str "Success"),
              ("message", Json.str ("Scope " ++ scope ++ " deleted successfully."))]))
    ∧ (∀ scope key v, (get_secret scope key (Except.ok v)).fst
          = dumps (Json.obj [("key", Json.str key), ("value", Json.str v),
                             ("source", Json.str "dbutils")]))
    ∧ (∀ scope permission principal,
        (create_acl_scopes scope permission principal (HttpOutcome.success body)).fst
          = dumps (Json.obj [("status", Json.str "Success"),
              ("message", Json.str ("Gave " ++ permission ++ " permission to "
                 ++ principal ++ " on " ++ scope ++ "."))]))
    ∧ (∀ scope, (list_acl_scopes scope (HttpOutcome.success body)).fst
          = dumps (Json.obj body))
    ∧ (∀ scope principal, (delete_acl_scopes scope principal (HttpOutcome.success body)).fst
          = dumps (Json.obj [("status", Json.str "Success"),
              ("message", Json.str ("Deleted permissions for " ++ principal
                 ++ " on " ++ scope ++ "."))]))
    ∧ ((list_clusters (HttpOutcome.success body)).fst
          = dumps (dictGet body "clusters" (Json.arr [])))
    ∧ (∀ cluster_id, (terminate_clusters cluster_id (HttpOutcome.success body)).fst
          = dumps (Json.obj [("status", Json.str "Success"),
              ("message", Json.str ("Cluster " ++ cluster_id ++ " terminated successfully."))]))
    ∧ (∀ cluster_id, (start_cluster cluster_id (HttpOutcome.success body)).fst
          = dumps (Json.obj [("status", Json.str "Success"),
              ("message", Json.str ("Cluster " ++ cluster_id ++ " started successfully."))]))
    ∧ (∀ cluster_id, (get_cluster_info cluster_id (HttpOutcome.success body)).fst
          = dumps (Json.obj body))
    ∧ (∀ cluster_id, (restart_cluster cluster_id (HttpOutcome.success body)).fst
          = dumps (Json.obj [("status", Json.str "Success"),
              ("message", Json.str ("Cluster " ++ cluster_id ++ " restarted successfully."))]))
    ∧ (∀ job_id, (start_job job_id none (HttpOutcome.success body)).fst
          = dumps (Json.obj [("status", Json.str "Success"),
              ("message", Json.str ("Job: " ++ toString job_id ++ " started successfully."))]))
    ∧ (∀ limit expand_tasks name page_token,
        (list_jobs limit expand_tasks name page_token (HttpOutcome.success body)).fst
          = dumps (Json.obj body))
    ∧ (∀ job_id, (cancel_job job_id (HttpOutcome.success body)).fst
          = "Job: " ++ toString job_id ++ " cancelled succesfully")
    ∧ (∀ job_id page_token, (get_job_details job_id page_token (HttpOutcome.success body)).fst
          = dumps (Json.obj body)) := by
  refine ⟨?_, ?_, ?_, ?_, ?_, ?_, ?_, ?_, ?_, ?_, ?_, ?_, ?_, ?_, ?_, ?_, ?_, ?_, ?_, ?_, ?_, ?_⟩
    <;> intros <;> rfl

/-- Claim C5: `fix_schema_recursive` removes the `additionalProperties`
field from every nested mapping at every depth, including mappings
inside sequences; the embedding is the pure value-level transform the
in-place Python mutation computes. -/
theorem fix_schema_strips_everywhere (x : Json) :
    noAddProps (fix_schema_recursive x) = true :=
  noAdd_fix x

/-- Claim C6: schema normalization is idempotent. -/
theorem fix_schema_idempotent (x : Json) :
    fix_schema_recursive (fix_schema_recursive x) = fix_schema_recursive x :=
  fix_of_clean (fix_schema_recursive x) (noAdd_fix x)

/-- Claim C7: the adapter loop maps each inbound item by role (`user` →
human, `assistant` → ai, `system` → system, anything else silently
dropped), and a list content is replaced by the space-joined `text`
values, in order, of exactly those parts that are dicts with a `text`
key, all other parts silently discarded. -/
theorem adapter_translation_matches_spec (input : List InMsg) (items : List InPart) :
    translateLoop input = input.filterMap msgMapSpec
    ∧ normContent (ReqContent.parts items)
        = String.intercalate " " (items.filterMap partTextSpec) :=
  ⟨translateLoop_eq_filterMap input, normContent_parts_eq items⟩

/-- Claim C8: `list_clusters` on a 200 response with body
`\x7b"clusters": [\x7b"cluster_id": "c1"\x7d]\x7d` returns exactly the extracted
list serialized, `[\x7b"cluster_id": "c1"\x7d]`. -/
theorem list_clusters_extracts_list :
    (list_clusters (HttpOutcome.success
        [("clusters", Json.arr [Json.obj [("cluster_id", Json.str "c1")]])])).fst
      = "[\x7b\"cluster_id\": \"c1\"\x7d]" := rfl

/-- Claim C9: `delete_secret("s1", "k1")` on a 200 response returns the
exact serialized status message. -/
theorem delete_secret_success_message :
    (delete_secret "s1" "k1" (HttpOutcome.success [])).fst
      = "\x7b\"status\": \"Success\", \"message\": \"Secret with key k1 deleted successfully.\"\x7d" :=
  rfl

/-- Claim C10: when `job_parameters` is provided, non-empty and not
valid JSON, `start_job` attempts zero HTTP requests and returns the
serialized error payload labelled `"start_job"`. -/
theorem start_job_invalid_params_no_request
    (job_id : Int) (jp : String) (e : String) (h : HttpOutcome)
    (hne : jp ≠ "") (hparse : jsonLoads jp = Except.error e) :
    start_job job_id (some jp) h = (databricksErr e "start_job", 0) := by
  simp [start_job, hne, hparse]

/-- Witness for C10 at the concrete non-JSON parameter string
`"not json"`. -/
theorem start_job_invalid_params_witness :
    start_job 5 (some "not json") (HttpOutcome.success [])
      = (databricksErr "Expecting value" "start_job", 0) :=
  start_job_invalid_params_no_request 5 "not json" "Expecting value"
    (HttpOutcome.success []) (by decide) rfl

end DatabricksAgent
